import Mathlib

/-!
Shallow embedding of the arkiv-rfq client library (TypeScript SDK) in Lean 4.

The embedding covers:
- the error classes of `src/errors` (JS `Error` objects modelled by their
  `name`, `message` and optional `originalError` fields);
- the pure validators of `src/sdk/src/utils/validation.ts`;
- the retry executor of `src/utils/retry.ts` (sleeping is modelled by the
  list of delays that would be waited, since wall-clock time is not
  observable in the embedding);
- the `ArkivRFQClient` lifecycle operations (create / get / update / cancel /
  delete), the query-filter translation and the watch dispatch logic of
  `src/client` (part_001).

JS strings are Lean `String`s; JS numbers used by the client are integers
(`Int`), matching the source which only manipulates integer timestamps,
chain ids and counters.  Asynchronous store calls are modelled by a state
monad over the list of store calls issued so far, with `Except` for thrown
errors; the external store and signer are explicit collaborator records.
-/

/-! ## JS string helpers -/

/-- JS `String.prototype.toLowerCase` restricted to ASCII, per character.
Ethereum addresses and the error messages classified by the retry logic are
ASCII. -/
def asciiToLower (c : Char) : Char :=
  if h : 65 ≤ c.toNat ∧ c.toNat ≤ 90 then
    ⟨c.val + 32, by
      have hc : c.toNat = c.val.toNat := rfl
      have hadd : (c.val + 32).toNat = (c.val.toNat + 32) % 2 ^ 32 := by
        simp [UInt32.toNat_add, UInt32.size]
      refine Or.inl ?_
      simp only [UInt32.isValidChar, Nat.isValidChar, hadd]
      omega⟩
  else c

/-- JS `toLowerCase` on a whole string. -/
def lowerString (s : String) : String :=
  ⟨s.data.map asciiToLower⟩

/-- Substring test on character lists (JS `String.prototype.includes`). -/
def listContainsSub (sub : List Char) : List Char → Bool
  | [] => sub.isEmpty
  | c :: rest => List.isPrefixOf sub (c :: rest) || listContainsSub sub rest

/-- JS `String.prototype.includes`. -/
def strContainsSub (s pat : String) : Bool :=
  listContainsSub pat.data s.data

/-- A character removed by JS `String.prototype.trim` (the inputs trimmed
by the SDK are ASCII, so the ASCII whitespace characters suffice). -/
def isTrimmableChar (c : Char) : Bool :=
  c == ' ' || c == '\t' || c == '\n' || c == '\r'

/-- JS `String.prototype.trim`. -/
def jsTrim (s : String) : String :=
  ⟨((s.data.dropWhile isTrimmableChar).reverse.dropWhile isTrimmableChar).reverse⟩

/-! ## Error model (src/errors/index.ts)

Each SDK error class sets `name` and builds `message` from a class-specific
fixed text; `ArkivNetworkError` and `SignatureError` additionally
keep the wrapped `originalError`. -/

/-- A thrown JS `Error`, modelled by the fields the SDK reads:
`name`, `message` and the optional `originalError` kept by the wrapping
error classes. -/
inductive JSError : Type where
  | mk (name : String) (message : String) (originalError : Option JSError)

def JSError.name : JSError → String
  | .mk n _ _ => n

def JSError.message : JSError → String
  | .mk _ m _ => m

def JSError.originalError : JSError → Option JSError
  | .mk _ _ o => o

def JSError.decEq : (a b : JSError) → Decidable (a = b)
  | .mk n m none, .mk n2 m2 none =>
    if h1 : n = n2 then
      if h2 : m = m2 then isTrue (by rw [h1, h2])
      else isFalse (by intro h; injection h; contradiction)
    else isFalse (by intro h; injection h; contradiction)
  | .mk n m (some a), .mk n2 m2 (some b) =>
    match JSError.decEq a b with
    | isTrue hab =>
      if h1 : n = n2 then
        if h2 : m = m2 then isTrue (by rw [h1, h2, hab])
        else isFalse (by intro h; injection h; contradiction)
      else isFalse (by intro h; injection h; contradiction)
    | isFalse hab =>
      isFalse (by
        intro h
        injection h with hn hm ho
        exact hab (Option.some_injective _ ho))
  | .mk _ _ none, .mk _ _ (some _) =>
    isFalse (by intro h; injection h with hn hm ho; exact Option.noConfusion ho)
  | .mk _ _ (some _), .mk _ _ none =>
    isFalse (by intro h; injection h with hn hm ho; exact Option.noConfusion ho)

instance : DecidableEq JSError := JSError.decEq

instance {ε α : Type} [DecidableEq ε] [DecidableEq α] : DecidableEq (Except ε α)
  | .ok a, .ok b =>
    if h : a = b then isTrue (by rw [h])
    else isFalse (by intro hh; injection hh; contradiction)
  | .error a, .error b =>
    if h : a = b then isTrue (by rw [h])
    else isFalse (by intro hh; injection hh; contradiction)
  | .ok _, .error _ => isFalse (by intro h; exact Except.noConfusion h)
  | .error _, .ok _ => isFalse (by intro h; exact Except.noConfusion h)

/-- `new ArkivNetworkError(message, originalError)`. -/
def mkArkivNetworkError (message : String) (originalError : Option JSError) : JSError :=
  .mk "ArkivNetworkError" ("Network error: " ++ message) originalError

/-- `new SignatureError(message, originalError)`. -/
def mkSignatureError (message : String) (originalError : Option JSError := none) : JSError :=
  .mk "SignatureError" ("Signature error: " ++ message) originalError

/-- `new ValidationError(message)`. -/
def mkValidationError (message : String) : JSError :=
  .mk "ValidationError" ("Validation error: " ++ message) none

/-- `new OwnershipError(message)`. -/
def mkOwnershipError (message : String) : JSError :=
  .mk "OwnershipError" ("Ownership error: " ++ message) none

/-- `new RFQNotFoundError(id)`. -/
def mkRFQNotFoundError (id : String) : JSError :=
  .mk "RFQNotFoundError" ("RFQ not found with id: " ++ id) none

/-! ## Data model (src/sdk/src/types/RFQ.ts) -/

structure TokenInfo where
  address : String
  chainId : Int
deriving DecidableEq, Repr

inductive RFQStatus where
  | OPEN
  | FILLED
  | CANCELLED
deriving DecidableEq, Repr

structure Fill where
  acceptor : String
  amount : String
  timestamp : Int
  txHash : String
deriving DecidableEq, Repr

/-- The RFQ record.  Optional TS fields are `Option`s (`none` models an
absent / `undefined` field). -/
structure RFQ where
  id : String
  creator : String
  baseToken : TokenInfo
  quoteToken : TokenInfo
  baseAmount : String
  quoteAmount : String
  expiresIn : Int
  status : RFQStatus
  createdAt : Int
  updatedAt : Int
  filledAmount : Option String
  fills : Option (List Fill)
  minFillAmount : Option String
  counterpartyRestrictions : Option (List String)
deriving DecidableEq, Repr

structure CreateRFQInput where
  baseToken : TokenInfo
  quoteToken : TokenInfo
  baseAmount : String
  quoteAmount : String
  expiresIn : Int
  minFillAmount : Option String := none
  counterpartyRestrictions : Option (List String) := none
deriving DecidableEq, Repr

/-- `UpdateRFQInput`: only these six fields exist on the TS interface; there
is no way to pass `id`, `creator`, `baseToken` or `quoteToken`. -/
structure UpdateRFQInput where
  baseAmount : Option String := none
  quoteAmount : Option String := none
  expiresIn : Option Int := none
  status : Option RFQStatus := none
  filledAmount : Option String := none
  fills : Option (List Fill) := none
deriving DecidableEq, Repr

structure QueryFilters where
  tokenPair : Option (TokenInfo × TokenInfo) := none
  chain : Option Int := none
  priceRange : Option (Int × Int) := none
  creator : Option String := none
  expiration : Option (Int × Int) := none
  status : Option RFQStatus := none
deriving DecidableEq, Repr

/-! ## Validators (src/sdk/src/utils/validation.ts)

Each validator either returns `Except.ok ()` or throws a `ValidationError`.
The regexes are translated character-wise: `/^0x[a-fA-F0-9]{40}$/` and
`/^\d+$/` with JS `\d = [0-9]`. -/

def isHexDigitChar (c : Char) : Bool :=
  c.isDigit || (97 ≤ c.toNat && c.toNat ≤ 102) || (65 ≤ c.toNat && c.toNat ≤ 70)

/-- `/^0x[a-fA-F0-9]{40}$/.test(address)` -/
def matchesAddressRegex (s : String) : Bool :=
  match s.data with
  | '0' :: 'x' :: rest => rest.length == 40 && rest.all isHexDigitChar
  | _ => false

/-- `/^\d+$/.test(amount)` -/
def matchesDigitsRegex (s : String) : Bool :=
  s.data.length != 0 && s.data.all Char.isDigit

def validateAddress (address fieldName : String) : Except JSError Unit :=
  if address = "" then
    .error (mkValidationError (fieldName ++ " is required and must be a string"))
  else if matchesAddressRegex address = false then
    .error (mkValidationError (fieldName ++ " must be a valid Ethereum address"))
  else
    .ok ()

def validateTokenInfo (token : TokenInfo) (fieldName : String) : Except JSError Unit := do
  validateAddress token.address (fieldName ++ ".address")
  if token.chainId ≤ 0 then
    .error (mkValidationError (fieldName ++ ".chainId must be a positive integer"))
  else
    .ok ()

def validateAmount (amount fieldName : String) : Except JSError Unit :=
  if amount = "" then
    .error (mkValidationError (fieldName ++ " is required and must be a string"))
  else if matchesDigitsRegex amount = false then
    .error (mkValidationError (fieldName ++ " must be a valid positive integer string"))
  else if amount = "0" then
    .error (mkValidationError (fieldName ++ " must be greater than zero"))
  else
    .ok ()

/-- `validateExpiration`; `now = Math.floor(Date.now() / 1000)` is passed
explicitly. -/
def validateExpiration (now expiresIn : Int) : Except JSError Unit :=
  if expiresIn ≤ 0 then
    .error (mkValidationError "expiresIn must be a positive integer timestamp")
  else if expiresIn ≤ now then
    .error (mkValidationError "expiresIn must be in the future")
  else if expiresIn > now + 30 * 24 * 60 * 60 then
    .error (mkValidationError "expiresIn cannot be more than 30 days in the future")
  else
    .ok ()

def validateAddressList (now : List String) (i : Nat) : Except JSError Unit :=
  match now with
  | [] => .ok ()
  | a :: rest => do
    validateAddress a ("counterpartyRestrictions[" ++ toString i ++ "]")
    validateAddressList rest (i + 1)

def validateCreateRFQInput (now : Int) (input : CreateRFQInput) : Except JSError Unit := do
  validateTokenInfo input.baseToken "baseToken"
  validateTokenInfo input.quoteToken "quoteToken"
  validateAmount input.baseAmount "baseAmount"
  validateAmount input.quoteAmount "quoteAmount"
  validateExpiration now input.expiresIn
  (match input.minFillAmount with
   | some m => validateAmount m "minFillAmount"
   | none => Except.ok ())
  (match input.counterpartyRestrictions with
   | some addrs => validateAddressList addrs 0
   | none => Except.ok ())

def validateRFQId (id : String) : Except JSError Unit :=
  if id = "" then
    .error (mkValidationError "RFQ ID is required and must be a string")
  else if jsTrim id = "" then
    .error (mkValidationError "RFQ ID cannot be empty")
  else
    .ok ()

/-! ## Retry executor (src/utils/retry.ts) -/

structure RetryConfig where
  maxRetries : Nat
  initialDelay : Nat
  maxDelay : Nat
  backoffMultiplier : Nat
deriving DecidableEq, Repr

def DEFAULT_RETRY_CONFIG : RetryConfig :=
  { maxRetries := 3, initialDelay := 1000, maxDelay := 10000, backoffMultiplier := 2 }

/-- `isNonRetryableError` from retry.ts.  All errors reaching it in this
embedding are `Error` instances, so the `instanceof` guard always holds. -/
def isNonRetryableError (e : JSError) : Bool :=
  (e.name == "ValidationError" || e.name == "OwnershipError" || e.name == "SignatureError")
    || (strContainsSub (lowerString e.message) "400"
        || strContainsSub (lowerString e.message) "404")

/-- The `ArkivNetworkError` thrown by `withRetry` once attempts are
exhausted. -/
def retryExhaustedError (maxRetries : Nat) (lastError : JSError) : JSError :=
  mkArkivNetworkError
    ("Operation failed after " ++ toString (maxRetries + 1) ++ " attempts")
    (some lastError)

/-- Outcome of `withRetry`: the value produced or error thrown, the number
of times the wrapped operation was invoked, and the sequence of backoff
delays slept between attempts. -/
structure RetryOutcome (T : Type) where
  result : Except JSError T
  invocations : Nat
  delays : List Nat

/-- The retry loop of `withRetry`.  The loop counter `attempt` runs from 0;
`remaining = maxRetries - attempt` counts the iterations still allowed, so
`remaining = 0` is exactly the `attempt === maxRetries` exit.  `fn` gives
the operation result on its k-th invocation (k = attempt index). -/
def retryGo {T : Type} (fn : Nat → Except JSError T) (maxRetries : Nat) :
    Nat → Nat → Nat → RetryOutcome T
  | attempt, _delay, 0 =>
    match fn attempt with
    | .ok v => ⟨.ok v, attempt + 1, []⟩
    | .error e => ⟨.error (retryExhaustedError maxRetries e), attempt + 1, []⟩
  | attempt, delay, Nat.succ rem =>
    match fn attempt with
    | .ok v => ⟨.ok v, attempt + 1, []⟩
    | .error e =>
      if isNonRetryableError e then
        ⟨.error (retryExhaustedError maxRetries e), attempt + 1, []⟩
      else
        let rest := retryGo fn maxRetries (attempt + 1)
          (min (delay * 2) 10000) rem
        ⟨rest.result, rest.invocations, delay :: rest.delays⟩

/-- `withRetry(fn, config)` with the backoff multiplier and delay cap from
the (default) config inlined in `retryGo`. -/
def withRetry {T : Type} (fn : Nat → Except JSError T) (config : RetryConfig) :
    RetryOutcome T :=
  retryGo fn config.maxRetries 0 config.initialDelay config.maxRetries

/-! ## Client operation monad

An operation is a function from the trace of store calls issued so far to a
result (`Except` for a thrown error) and the extended trace.  The trace
records every store round-trip the client attempts, in order. -/

inductive StoreCall where
  | writeEntity (entityType entityKey : String)
  | getEntity (entityType entityKey : String)
  | deleteEntity (entityType entityKey : String)
  | queryEntities (entityType : String)
deriving DecidableEq, Repr

def OpM (α : Type) : Type :=
  List StoreCall → Except JSError α × List StoreCall

def opPure {α : Type} (a : α) : OpM α := fun t => (.ok a, t)

def opBind {α β : Type} (x : OpM α) (f : α → OpM β) : OpM β := fun t =>
  match x t with
  | (.ok a, t2) => f a t2
  | (.error e, t2) => (.error e, t2)

def opThrow {α : Type} (e : JSError) : OpM α := fun t => (.error e, t)

/-- JS `try/catch`: state (the call trace) accumulated before the throw is
kept. -/
def opTryCatch {α : Type} (x : OpM α) (handler : JSError → OpM α) : OpM α := fun t =>
  match x t with
  | (.ok a, t2) => (.ok a, t2)
  | (.error e, t2) => handler e t2

def liftEx {α : Type} (x : Except JSError α) : OpM α := fun t => (x, t)

def recordCall (c : StoreCall) : OpM Unit := fun t => (.ok (), t ++ [c])

def runOp {α : Type} (op : OpM α) : Except JSError α × List StoreCall := op []

/-- `withRetry` around an effectful operation, as used by the client: the
loop re-runs the operation on each attempt; sleeping has no observable
effect on the trace or result and is elided here. -/
def retryGoOp {α : Type} (op : OpM α) (maxRetries : Nat) : Nat → OpM α
  | 0 => opTryCatch op (fun e => opThrow (retryExhaustedError maxRetries e))
  | Nat.succ rem => opTryCatch op (fun e =>
      if isNonRetryableError e then opThrow (retryExhaustedError maxRetries e)
      else retryGoOp op maxRetries rem)

def withRetryOp {α : Type} (op : OpM α) (config : RetryConfig) : OpM α :=
  retryGoOp op config.maxRetries config.maxRetries

/-! ## External collaborators (src/sdk/src/types/arkiv.ts and ethers signer) -/

/-- The record stored by the entity store.  The client only ever writes and
reads RFQ payloads as `data`. -/
structure ArkivEntity where
  entityKey : String
  data : RFQ
  timestamp : Int
deriving DecidableEq, Repr

structure WriteEntityOptions where
  entityType : String
  entityKey : String
  data : RFQ
  signature : Option String
deriving DecidableEq, Repr

/-- Deterministic model of the store collaborator: what each call returns
(or throws). -/
structure StoreModel where
  getEntity : String → String → Except JSError (Option ArkivEntity)
  writeEntity : WriteEntityOptions → Except JSError ArkivEntity
  deleteEntity : String → String → Except JSError Unit

/-- The ethers signer collaborator: an address and a message-signing
function. -/
structure Signer where
  address : String
  signMessage : String → String

/-- The client: the store it talks to and the optional configured signer. -/
structure ClientCtx where
  store : StoreModel
  signer : Option Signer

/-! ## ArkivRFQClient (src/client, part_001)

`Math.floor(Date.now() / 1000)` and `Math.random()` are nondeterministic
inputs of the operations; they appear as explicit parameters `now` and
`random` (each operation reads the clock at most once, matching the
source).  `JSON.stringify` of the signed payload is modelled by `reprStr`;
no claim depends on the serialization format. -/

def RFQ_ENTITY_TYPE : String := "RFQ"

def DEFAULT_POLLING_INTERVAL : Nat := 2000

def DEFAULT_PAGE_LIMIT : Nat := 50

/-- JS `a || b` for strings: the empty string is the only falsy string. -/
def jsOrStr (a : Option String) (b : String) : String :=
  match a with
  | some s => if s = "" then b else s
  | none => b

/-- `generateRFQId(creator, timestamp)`; the random base-36 suffix is the
parameter `random`. -/
def generateRFQId (creator : String) (timestamp : Int) (random : String) : String :=
  lowerString creator ++ "-" ++ toString timestamp ++ "-" ++ random

/-- `entityToRFQ`: field-by-field copy of `entity.data` into a domain
record. -/
def entityToRFQ (entity : ArkivEntity) : RFQ :=
  { id := entity.data.id
    creator := entity.data.creator
    baseToken := entity.data.baseToken
    quoteToken := entity.data.quoteToken
    baseAmount := entity.data.baseAmount
    quoteAmount := entity.data.quoteAmount
    expiresIn := entity.data.expiresIn
    status := entity.data.status
    createdAt := entity.data.createdAt
    updatedAt := entity.data.updatedAt
    filledAmount := entity.data.filledAmount
    fills := entity.data.fills
    minFillAmount := entity.data.minFillAmount
    counterpartyRestrictions := entity.data.counterpartyRestrictions }

/-- The `rfqData` object assembled by `createRFQ`. -/
def mkCreateData (id creator : String) (input : CreateRFQInput) (now : Int) : RFQ :=
  { id := id
    creator := creator
    baseToken := input.baseToken
    quoteToken := input.quoteToken
    baseAmount := input.baseAmount
    quoteAmount := input.quoteAmount
    expiresIn := input.expiresIn
    status := .OPEN
    createdAt := now
    updatedAt := now
    filledAmount := some (jsOrStr input.minFillAmount "0")
    fills := some []
    minFillAmount := input.minFillAmount
    counterpartyRestrictions := input.counterpartyRestrictions }

/-- The `updatedData` object assembled by `updateRFQ`:
`{...existingRFQ, ...updates, updatedAt: now}`.  A field of
`UpdateRFQInput` overrides the existing value exactly when it is present
on the update object. -/
def mergeUpdate (existing : RFQ) (updates : UpdateRFQInput) (now : Int) : RFQ :=
  { existing with
    baseAmount := updates.baseAmount.getD existing.baseAmount
    quoteAmount := updates.quoteAmount.getD existing.quoteAmount
    expiresIn := updates.expiresIn.getD existing.expiresIn
    status := updates.status.getD existing.status
    filledAmount :=
      match updates.filledAmount with
      | some v => some v
      | none => existing.filledAmount
    fills :=
      match updates.fills with
      | some v => some v
      | none => existing.fills
    updatedAt := now }

/-- `getSignerAddress`: throws `SignatureError` when no signer is
configured (the ethers `getAddress` round-trip of a configured signer is
modelled as succeeding). -/
def getSignerAddress (ctx : ClientCtx) : OpM String :=
  match ctx.signer with
  | none => opThrow (mkSignatureError "No signer configured. Call setSigner() first.")
  | some s => opPure s.address

/-- Stand-in for `JSON.stringify` of the signed payload. -/
def stringifyRFQData (data : RFQ) : String := reprStr data

/-- `signRFQData`: throws `SignatureError` when no signer is configured,
otherwise signs the serialized payload. -/
def signRFQData (ctx : ClientCtx) (data : RFQ) : OpM String :=
  match ctx.signer with
  | none => opThrow (mkSignatureError "No signer configured. Call setSigner() first.")
  | some s => opPure (s.signMessage (stringifyRFQData data))

def callGetEntity (ctx : ClientCtx) (entityType entityKey : String) :
    OpM (Option ArkivEntity) :=
  opBind (recordCall (.getEntity entityType entityKey)) fun _ =>
    liftEx (ctx.store.getEntity entityType entityKey)

def callWriteEntity (ctx : ClientCtx) (w : WriteEntityOptions) : OpM ArkivEntity :=
  opBind (recordCall (.writeEntity w.entityType w.entityKey)) fun _ =>
    liftEx (ctx.store.writeEntity w)

def callDeleteEntity (ctx : ClientCtx) (entityType entityKey : String) : OpM Unit :=
  opBind (recordCall (.deleteEntity entityType entityKey)) fun _ =>
    liftEx (ctx.store.deleteEntity entityType entityKey)

/-- The `try { ... } catch { throw new ArkivNetworkError(message, error) }`
pattern wrapped around every store round-trip. -/
def wrapNet {α : Type} (message : String) (op : OpM α) : OpM α :=
  opTryCatch op (fun e => opThrow (mkArkivNetworkError message (some e)))

/-- `getRFQ(id)`. -/
def getRFQ (ctx : ClientCtx) (id : String) : OpM (Option RFQ) :=
  opBind (liftEx (validateRFQId id)) fun _ =>
    withRetryOp
      (wrapNet "Failed to get RFQ"
        (opBind (callGetEntity ctx RFQ_ENTITY_TYPE id) fun entity =>
          opPure (entity.map entityToRFQ)))
      DEFAULT_RETRY_CONFIG

/-- `createRFQ(input)`. -/
def createRFQ (ctx : ClientCtx) (input : CreateRFQInput) (now : Int) (random : String) :
    OpM RFQ :=
  opBind (liftEx (validateCreateRFQInput now input)) fun _ =>
  opBind (getSignerAddress ctx) fun creator =>
  opBind (signRFQData ctx (mkCreateData (generateRFQId creator now random) creator input now))
    fun signature =>
    withRetryOp
      (wrapNet "Failed to create RFQ"
        (opBind (callWriteEntity ctx
            { entityType := RFQ_ENTITY_TYPE
              entityKey := generateRFQId creator now random
              data := mkCreateData (generateRFQId creator now random) creator input now
              signature := some signature }) fun entity =>
          opPure (entityToRFQ entity)))
      DEFAULT_RETRY_CONFIG

/-- `updateRFQ(id, updates)`. -/
def updateRFQ (ctx : ClientCtx) (id : String) (updates : UpdateRFQInput) (now : Int) :
    OpM RFQ :=
  opBind (liftEx (validateRFQId id)) fun _ =>
  opBind (getRFQ ctx id) fun found =>
  match found with
  | none => opThrow (mkRFQNotFoundError id)
  | some existingRFQ =>
    opBind (getSignerAddress ctx) fun signerAddress =>
    if lowerString existingRFQ.creator ≠ lowerString signerAddress then
      opThrow (mkOwnershipError "Only the RFQ creator can update this RFQ")
    else if existingRFQ.status ≠ .OPEN then
      opThrow (mkOwnershipError "Cannot update a non-open RFQ")
    else
      opBind (signRFQData ctx (mergeUpdate existingRFQ updates now)) fun signature =>
        withRetryOp
          (wrapNet "Failed to update RFQ"
            (opBind (callWriteEntity ctx
                { entityType := RFQ_ENTITY_TYPE, entityKey := id
                  data := mergeUpdate existingRFQ updates now
                  signature := some signature }) fun entity =>
              opPure (entityToRFQ entity)))
          DEFAULT_RETRY_CONFIG

/-- `cancelRFQ(id)`. -/
def cancelRFQ (ctx : ClientCtx) (id : String) (now : Int) : OpM RFQ :=
  updateRFQ ctx id { status := some .CANCELLED } now

/-- `deleteRFQ(id)`. -/
def deleteRFQ (ctx : ClientCtx) (id : String) : OpM Unit :=
  opBind (liftEx (validateRFQId id)) fun _ =>
  opBind (getRFQ ctx id) fun found =>
  match found with
  | none => opThrow (mkRFQNotFoundError id)
  | some existingRFQ =>
    opBind (getSignerAddress ctx) fun signerAddress =>
    if lowerString existingRFQ.creator ≠ lowerString signerAddress then
      opThrow (mkOwnershipError "Only the RFQ creator can delete this RFQ")
    else
      withRetryOp
        (wrapNet "Failed to delete RFQ"
          (callDeleteEntity ctx RFQ_ENTITY_TYPE id))
        DEFAULT_RETRY_CONFIG

/-! ## Query translation (buildArkivFilters) -/

/-- The store-level filter record produced by `buildArkivFilters`
(`Record<string, any>` with the fixed keys the client uses; an absent key
is `none`). -/
structure ArkivFilters where
  baseTokenAddress : Option String := none
  baseTokenChainId : Option Int := none
  quoteTokenAddress : Option String := none
  quoteTokenChainId : Option Int := none
  orChainId : Option Int := none
  creator : Option String := none
  expiresGte : Option Int := none
  expiresLte : Option Int := none
  status : Option RFQStatus := none
deriving DecidableEq, Repr

/-- `buildArkivFilters(filters)`.  The JS truthiness guards
`if (filters.chain)` and `if (filters.creator)` skip a present but falsy
value (0, empty string); `filters.priceRange` is accepted but translated to
nothing. -/
def buildArkivFilters (filters : Option QueryFilters) : ArkivFilters :=
  match filters with
  | none => {}
  | some f =>
    { baseTokenAddress := f.tokenPair.map fun p => p.1.address
      baseTokenChainId := f.tokenPair.map fun p => p.1.chainId
      quoteTokenAddress := f.tokenPair.map fun p => p.2.address
      quoteTokenChainId := f.tokenPair.map fun p => p.2.chainId
      orChainId :=
        match f.chain with
        | some c => if c ≠ 0 then some c else none
        | none => none
      creator :=
        match f.creator with
        | some c => if c ≠ "" then some (lowerString c) else none
        | none => none
      expiresGte := f.expiration.map fun p => p.1
      expiresLte := f.expiration.map fun p => p.2
      status := f.status }

/-! ## Change feed dispatch (watchRFQs)

Handler registration is modelled by presence flags; the dispatch functions
return the list of handler invocations (event kind plus the mapped record
passed to the handler) triggered by a single store notification.  The
`onUpdated` wrapper passed to `watchEntities` exists only when
`options.onUpdated` is registered, and likewise for `onCreated`. -/

structure WatchHandlers where
  onCreated : Bool
  onUpdated : Bool
  onCancelled : Bool
  onFilled : Bool
deriving DecidableEq, Repr

inductive WatchEvent where
  | created (rfq : RFQ)
  | updated (rfq : RFQ)
  | cancelled (rfq : RFQ)
  | filled (rfq : RFQ)
deriving DecidableEq, Repr

/-- What the `onCreated` wrapper installed by `watchRFQs` dispatches for a
newly observed entity. -/
def dispatchCreated (opts : WatchHandlers) (entity : ArkivEntity) : List WatchEvent :=
  if opts.onCreated then
    let rfq := entityToRFQ entity
    if rfq.status = .OPEN then [.created rfq] else []
  else []

/-- What the `onUpdated` wrapper installed by `watchRFQs` dispatches for an
updated entity. -/
def dispatchUpdated (opts : WatchHandlers) (entity : ArkivEntity) : List WatchEvent :=
  if opts.onUpdated then
    let rfq := entityToRFQ entity
    if rfq.status = .CANCELLED ∧ opts.onCancelled then [.cancelled rfq]
    else if rfq.status = .FILLED ∧ opts.onFilled then [.filled rfq]
    else if opts.onUpdated then [.updated rfq]
    else []
  else []

/-! ## Denotation of amount strings -/

/-- The integer denoted by a string of decimal digits (the value a consumer
of the SDK reads off an amount string). -/
def decimalValue (s : String) : Nat :=
  s.data.foldl (fun acc c => acc * 10 + (c.toNat - 48)) 0

/-- The `SignatureError` thrown by `getSignerAddress` and `signRFQData`
when no signer is configured. -/
def noSignerError : JSError :=
  mkSignatureError "No signer configured. Call setSigner() first."

/-! ## Concrete fixtures (used by witnesses and counterexamples) -/

/-- A mixed-case Ethereum address, as a checksummed signer address would
be. -/
def addrMixed : String := "0xAbCdEf0123456789aBcDeF0123456789AbCdEf01"

def tokenB : TokenInfo :=
  { address := "0x1111111111111111111111111111111111111111", chainId := 11155111 }

def tokenQ : TokenInfo :=
  { address := "0x2222222222222222222222222222222222222222", chainId := 11155111 }

/-- A create input that passes validation at `now = 1000`. -/
def inputW : CreateRFQInput :=
  { baseToken := tokenB, quoteToken := tokenQ
    baseAmount := "1000000000000000000", quoteAmount := "2000000000", expiresIn := 2000 }

/-- The same input with a `minFillAmount`. -/
def inputWithMin : CreateRFQInput :=
  { baseToken := tokenB, quoteToken := tokenQ
    baseAmount := "1000000000000000000", quoteAmount := "2000000000", expiresIn := 2000
    minFillAmount := some "500" }

/-- An OPEN RFQ created by `addrMixed`, last updated at time 100. -/
def rfqOpen : RFQ :=
  { id := "rfq-1", creator := addrMixed, baseToken := tokenB, quoteToken := tokenQ
    baseAmount := "1000000000000000000", quoteAmount := "2000000000", expiresIn := 2000
    status := .OPEN, createdAt := 100, updatedAt := 100
    filledAmount := some "0", fills := some [], minFillAmount := none
    counterpartyRestrictions := none }

/-- The same RFQ after cancellation. -/
def rfqCancelled : RFQ :=
  { rfqOpen with id := "rfq-2", status := .CANCELLED }

def entOpen : ArkivEntity := { entityKey := "rfq-1", data := rfqOpen, timestamp := 0 }

def entCancelled : ArkivEntity := { entityKey := "rfq-2", data := rfqCancelled, timestamp := 0 }

/-- A store that holds `entOpen` under key `rfq-1` and `entCancelled` under
`rfq-2`, echoes every write back and accepts every delete. -/
def echoStore : StoreModel :=
  { getEntity := fun _ k =>
      if k = "rfq-1" then .ok (some entOpen)
      else if k = "rfq-2" then .ok (some entCancelled)
      else .ok none
    writeEntity := fun w => .ok { entityKey := w.entityKey, data := w.data, timestamp := 0 }
    deleteEntity := fun _ _ => .ok () }

/-- A store whose every call fails with an HTTP 404 error. -/
def err404 : JSError :=
  .mk "Error" "Request failed with status code 404" none

def failStore : StoreModel :=
  { getEntity := fun _ _ => .error err404
    writeEntity := fun _ => .error err404
    deleteEntity := fun _ _ => .error err404 }

def signerW : Signer := { address := addrMixed, signMessage := fun _ => "0xsig" }

def ctxEcho : ClientCtx := { store := echoStore, signer := some signerW }

def ctxNoSigner : ClientCtx := { store := echoStore, signer := none }

def ctxFail : ClientCtx := { store := failStore, signer := some signerW }

/-- A signer whose address differs from every fixture creator. -/
def signerOther : Signer :=
  { address := "0x9999999999999999999999999999999999999999"
    signMessage := fun _ => "0xsig2" }

def ctxOther : ClientCtx := { store := echoStore, signer := some signerOther }

/-! ## Helper lemmas about the embedding -/

/-- `entityToRFQ` is the identity on the stored payload. -/
lemma entityToRFQ_data (entity : ArkivEntity) : entityToRFQ entity = entity.data := rfl

/-- A retried operation that succeeds on its first attempt returns that
success unchanged, whatever the remaining attempt budget. -/
lemma retryGoOp_first_ok {α : Type} (op : OpM α) (mr rem : Nat) (t t2 : List StoreCall)
    (a : α) (h : op t = (.ok a, t2)) : retryGoOp op mr rem t = (.ok a, t2) := by
  cases rem <;> simp [retryGoOp, opTryCatch, h]

/-- A retried operation whose first attempt throws a non-retryable error
aborts at once with the wrapped network error. -/
lemma retryGoOp_first_nonretryable {α : Type} (op : OpM α) (mr rem : Nat)
    (t t2 : List StoreCall) (e : JSError) (h : op t = (.error e, t2))
    (hn : isNonRetryableError e = true) :
    retryGoOp op mr rem t = (.error (retryExhaustedError mr e), t2) := by
  cases rem <;> simp [retryGoOp, opTryCatch, opThrow, h, hn]

/-- A retried operation that performs one store call and then throws the
same retryable error on every attempt is re-invoked until the budget is
exhausted: `rem + 1` attempts happen and the final error wraps the last
failure. -/
lemma retryGoOp_all_fail {α : Type} (op : OpM α) (mr : Nat) (e : JSError) (c : StoreCall)
    (hop : ∀ t, op t = (.error e, t ++ [c])) (hn : isNonRetryableError e = false) :
    ∀ (rem : Nat) (t : List StoreCall),
      retryGoOp op mr rem t =
        (.error (retryExhaustedError mr e), t ++ List.replicate (rem + 1) c) := by
  intro rem
  induction rem with
  | zero => intro t; simp [retryGoOp, opTryCatch, opThrow, hop]
  | succ n ih =>
    intro t
    simp [retryGoOp, opTryCatch, opThrow, hop, hn, ih, List.replicate_succ]

lemma string_eq_empty_iff (s : String) : s = "" ↔ s.data = [] := by
  constructor
  · intro h; rw [h]
  · intro h; cases s; simp_all

lemma asciiToLower_toNat_of_upper (c : Char) (h : 65 ≤ c.toNat ∧ c.toNat ≤ 90) :
    (asciiToLower c).toNat = c.toNat + 32 := by
  unfold asciiToLower
  rw [dif_pos h]
  show (c.val + 32).toNat = c.toNat + 32
  have hc : c.toNat = c.val.toNat := rfl
  rw [hc] at h ⊢
  rw [UInt32.toNat_add]
  simp [UInt32.size]
  omega

lemma asciiToLower_eq_of_not_upper (c : Char) (h : ¬(65 ≤ c.toNat ∧ c.toNat ≤ 90)) :
    asciiToLower c = c := by
  unfold asciiToLower
  exact dif_neg h

/-- JS `toLowerCase` is idempotent per character. -/
lemma asciiToLower_idem (c : Char) : asciiToLower (asciiToLower c) = asciiToLower c := by
  by_cases h : 65 ≤ c.toNat ∧ c.toNat ≤ 90
  · have h2 : ¬(65 ≤ (asciiToLower c).toNat ∧ (asciiToLower c).toNat ≤ 90) := by
      rw [asciiToLower_toNat_of_upper c h]
      omega
    exact asciiToLower_eq_of_not_upper _ h2
  · rw [asciiToLower_eq_of_not_upper c h, asciiToLower_eq_of_not_upper c h]

/-- JS `toLowerCase` is idempotent. -/
lemma lowerString_idem (s : String) : lowerString (lowerString s) = lowerString s := by
  unfold lowerString
  simp [List.map_map, Function.comp_def, asciiToLower_idem]

lemma validateAmount_ok (amount f : String) (h : validateAmount amount f = .ok ()) :
    amount ≠ "" ∧ matchesDigitsRegex amount = true ∧ amount ≠ "0" := by
  unfold validateAmount at h
  split_ifs at h with h1 h2 h3
  simp_all

lemma except_ok_of_bind {α : Type} {x : Except JSError Unit} {f : Unit → Except JSError α}
    {v : α} (h : (x >>= f) = .ok v) : x = .ok () ∧ f () = .ok v := by
  cases x with
  | error e => simp [Bind.bind, Except.bind] at h
  | ok u => cases u; exact ⟨rfl, h⟩

/-- A create input that passed validation had each amount field validated,
in particular a present `minFillAmount`. -/
lemma validateCreateRFQInput_parts (now : Int) (input : CreateRFQInput)
    (h : validateCreateRFQInput now input = .ok ()) :
    validateAmount input.baseAmount "baseAmount" = .ok ()
    ∧ validateAmount input.quoteAmount "quoteAmount" = .ok ()
    ∧ (∀ m, input.minFillAmount = some m → validateAmount m "minFillAmount" = .ok ()) := by
  unfold validateCreateRFQInput at h
  obtain ⟨h1, h⟩ := except_ok_of_bind h
  obtain ⟨h2, h⟩ := except_ok_of_bind h
  obtain ⟨h3, h⟩ := except_ok_of_bind h
  obtain ⟨h4, h⟩ := except_ok_of_bind h
  obtain ⟨h5, h⟩ := except_ok_of_bind h
  obtain ⟨h6, h7⟩ := except_ok_of_bind h
  refine ⟨h3, h4, ?_⟩
  intro m hm
  rw [hm] at h6
  exact h6

lemma char_eq_zero_of_toNat (c : Char) (h : c.toNat = 48) : c = '0' := by
  apply Char.eq_of_val_eq
  apply UInt32.eq_of_toBitVec_eq
  apply BitVec.toNat_injective
  exact h

/-- Folding up the decimal value of a digit string starting from a positive
accumulator, or over digits at least one of which is nonzero, yields a
positive value. -/
lemma decimal_foldl_pos (l : List Char) (acc : Nat)
    (hdig : ∀ c ∈ l, c.isDigit = true)
    (hpos : 0 < acc ∨ ∃ c ∈ l, c ≠ '0') :
    0 < l.foldl (fun a c => a * 10 + (c.toNat - 48)) acc := by
  induction l generalizing acc with
  | nil =>
    rcases hpos with h | ⟨c, hc, _⟩
    · exact h
    · simp at hc
  | cons c rest ih =>
    simp only [List.foldl_cons]
    apply ih
    · intro d hd; exact hdig d (List.mem_cons_of_mem c hd)
    · rcases hpos with h | ⟨d, hd, hdz⟩
      · left; omega
      · rcases List.mem_cons.mp hd with rfl | hmem
        · left
          have hdi : d.isDigit = true := hdig d (List.mem_cons_self d rest)
          have h48 : 48 ≤ d.toNat ∧ d.toNat ≤ 57 := by
            simp [Char.isDigit, Char.le_def, UInt32.le_def, BitVec.le_def] at hdi
            exact hdi
          have hne : d.toNat ≠ 48 := fun hh => hdz (char_eq_zero_of_toNat d hh)
          omega
        · right; exact ⟨d, hmem, hdz⟩

/-- The successful path of `updateRFQ` against a store that echoes writes:
one read, the ownership and status checks pass, one write of the merged
record, whose echo is returned. -/
lemma updateRFQ_success_run (ctx : ClientCtx) (s : Signer) (id : String)
    (upd : UpdateRFQInput) (now : Int) (ent : ArkivEntity)
    (hs : ctx.signer = some s)
    (hv : validateRFQId id = .ok ())
    (hg : ctx.store.getEntity "RFQ" id = .ok (some ent))
    (hcr : lowerString ent.data.creator = lowerString s.address)
    (hst : ent.data.status = .OPEN)
    (hw : ∀ w, ctx.store.writeEntity w = .ok ⟨w.entityKey, w.data, 0⟩) :
    runOp (updateRFQ ctx id upd now) =
      (.ok (mergeUpdate ent.data upd now),
        [StoreCall.getEntity "RFQ" id, StoreCall.writeEntity "RFQ" id]) := by
  have hinner1 : ∀ t : List StoreCall,
      (wrapNet "Failed to get RFQ"
        (opBind (callGetEntity ctx RFQ_ENTITY_TYPE id) fun entity =>
          opPure (entity.map entityToRFQ))) t =
      (.ok (some (entityToRFQ ent)), t ++ [StoreCall.getEntity "RFQ" id]) := by
    intro t
    simp [wrapNet, opTryCatch, callGetEntity, recordCall, liftEx, RFQ_ENTITY_TYPE,
      opBind, opPure, hg]
  have hinner2 : ∀ (sig : String) (t : List StoreCall),
      (wrapNet "Failed to update RFQ"
        (opBind (callWriteEntity ctx
            { entityType := RFQ_ENTITY_TYPE, entityKey := id
              data := mergeUpdate ent.data upd now
              signature := some sig }) fun entity =>
          opPure entity.data)) t =
      (.ok (mergeUpdate ent.data upd now), t ++ [StoreCall.writeEntity "RFQ" id]) := by
    intro sig t
    simp [wrapNet, opTryCatch, callWriteEntity, recordCall, liftEx, RFQ_ENTITY_TYPE,
      opBind, opPure, hw, entityToRFQ_data]
  simp [runOp, updateRFQ, getRFQ, withRetryOp, DEFAULT_RETRY_CONFIG, opBind, liftEx, hv,
    retryGoOp_first_ok _ _ _ _ _ _ (hinner1 []), getSignerAddress, hs, opPure,
    entityToRFQ_data, hcr, hst, signRFQData,
    retryGoOp_first_ok _ _ _ _ _ _
      (hinner2 (s.signMessage (stringifyRFQData (mergeUpdate ent.data upd now)))
        [StoreCall.getEntity "RFQ" id])]

/-- The successful path of `createRFQ` against a store that echoes writes:
the assembled record is written once and its echo returned. -/
lemma createRFQ_success_run (ctx : ClientCtx) (s : Signer) (input : CreateRFQInput)
    (now : Int) (random : String)
    (hs : ctx.signer = some s)
    (hvi : validateCreateRFQInput now input = .ok ())
    (hw : ∀ w, ctx.store.writeEntity w = .ok ⟨w.entityKey, w.data, 0⟩) :
    runOp (createRFQ ctx input now random) =
      (.ok (mkCreateData (generateRFQId s.address now random) s.address input now),
        [StoreCall.writeEntity "RFQ" (generateRFQId s.address now random)]) := by
  have hinner : ∀ (sig : String) (t : List StoreCall),
      (wrapNet "Failed to create RFQ"
        (opBind (callWriteEntity ctx
            { entityType := RFQ_ENTITY_TYPE
              entityKey := generateRFQId s.address now random
              data := mkCreateData (generateRFQId s.address now random) s.address input now
              signature := some sig }) fun entity =>
          opPure entity.data)) t =
      (.ok (mkCreateData (generateRFQId s.address now random) s.address input now),
        t ++ [StoreCall.writeEntity "RFQ" (generateRFQId s.address now random)]) := by
    intro sig t
    simp [wrapNet, opTryCatch, callWriteEntity, recordCall, liftEx, RFQ_ENTITY_TYPE,
      opBind, opPure, hw, entityToRFQ_data]
  simp [runOp, createRFQ, opBind, liftEx, hvi, getSignerAddress, hs, opPure, signRFQData,
    withRetryOp, DEFAULT_RETRY_CONFIG, entityToRFQ_data,
    retryGoOp_first_ok _ _ _ _ _ _
      (hinner (s.signMessage (stringifyRFQData
        (mkCreateData (generateRFQId s.address now random) s.address input now))) [])]

/-! ## Claims -/

/-- C2 counterexample: a watch registered with an `onCancelled` handler but
without a generic `onUpdated` handler installs no update wrapper at all, so
an update notification whose record has current status CANCELLED fires
nothing — the registered `onCancelled` handler does not fire. -/
theorem c2_counterexample :
    dispatchUpdated
        { onCreated := false, onUpdated := false, onCancelled := true, onFilled := false }
        entCancelled = []
    ∧ (entityToRFQ entCancelled).status = .CANCELLED := by
  constructor
  · decide
  · decide

/-- C2 (amended): provided the generic `onUpdated` handler is registered
(the update wrapper is only installed when it is), an update notification
whose record has current status CANCELLED fires the `onCancelled` handler
with the mapped record when `onCancelled` is registered, and otherwise
falls through to the generic `onUpdated` handler. -/
theorem c2_updated_dispatch (opts : WatchHandlers) (entity : ArkivEntity)
    (hu : opts.onUpdated = true)
    (hc : (entityToRFQ entity).status = .CANCELLED) :
    dispatchUpdated opts entity =
      if opts.onCancelled then [.cancelled (entityToRFQ entity)]
      else [.updated (entityToRFQ entity)] := by
  cases hoc : opts.onCancelled <;> simp [dispatchUpdated, hu, hc, hoc]

theorem c2_witness :
    dispatchUpdated
        { onCreated := false, onUpdated := true, onCancelled := true, onFilled := false }
        entCancelled = [WatchEvent.cancelled (entityToRFQ entCancelled)] := by
  have h := c2_updated_dispatch
    { onCreated := false, onUpdated := true, onCancelled := true, onFilled := false }
    entCancelled rfl (by decide)
  simpa using h

/-- C4 counterexample: the string "00" is accepted by `validateAmount`
(non-empty, all digits, not the literal "0") yet denotes the integer 0,
which is not strictly positive. -/
theorem c4_counterexample :
    validateAmount "00" "amount" = .ok () ∧ decimalValue "00" = 0 := by
  constructor
  · decide
  · decide

/-- C4 (amended): `validateAmount` accepts a string if and only if it is a
non-empty string of decimal digits not equal to the literal "0" (strings
with leading or extra non-digit characters are rejected); an accepted
string containing at least one nonzero digit denotes a strictly positive
integer, but accepted strings made only of repeated zeros denote zero. -/
theorem c4_validateAmount_characterization (s f : String) :
    (validateAmount s f = .ok () ↔
      s.data ≠ [] ∧ s.data.all Char.isDigit = true ∧ s ≠ "0")
    ∧ (validateAmount s f = .ok () → (∃ c ∈ s.data, c ≠ '0') → 0 < decimalValue s) := by
  have hiff : validateAmount s f = .ok () ↔
      s.data ≠ [] ∧ s.data.all Char.isDigit = true ∧ s ≠ "0" := by
    constructor
    · intro h
      obtain ⟨h1, h2, h3⟩ := validateAmount_ok s f h
      refine ⟨fun hd => h1 ((string_eq_empty_iff s).mpr hd), ?_, h3⟩
      unfold matchesDigitsRegex at h2
      simp only [Bool.and_eq_true, bne_iff_ne, ne_eq] at h2
      exact h2.2
    · rintro ⟨hne, hall, h0⟩
      have h1 : ¬ s = "" := fun h => hne ((string_eq_empty_iff s).mp h)
      have h2 : matchesDigitsRegex s = true := by
        unfold matchesDigitsRegex
        simp only [Bool.and_eq_true, bne_iff_ne, ne_eq, List.length_eq_zero]
        exact ⟨hne, hall⟩
      unfold validateAmount
      simp [h1, h2, h0]
  refine ⟨hiff, ?_⟩
  intro hok hex
  have hall := (hiff.mp hok).2.1
  unfold decimalValue
  exact decimal_foldl_pos s.data 0
    (fun c hc => List.all_eq_true.mp hall c hc) (Or.inr hex)

theorem c4_witness : 0 < decimalValue "10" :=
  (c4_validateAmount_characterization "10" "amount").2 (by decide) (by decide)

/-- C5: with the default configuration (maxRetries = 3), an operation that
fails twice with a retryable error and then succeeds makes the wrapped call
succeed after exactly 3 invocations (sleeping 1000ms then 2000ms); an
operation that always fails with a validation-classified error is invoked
exactly once and the executor aborts immediately with the wrapping network
error. -/
theorem c5_withRetry_counts {T : Type} (v : T) (e1 e2 : JSError)
    (h1 : isNonRetryableError e1 = false)
    (h2 : e2.name = "ValidationError") :
    withRetry (fun k => if k < 2 then .error e1 else .ok v) DEFAULT_RETRY_CONFIG =
      ⟨.ok v, 3, [1000, 2000]⟩
    ∧ withRetry (fun _ => (.error e2 : Except JSError T)) DEFAULT_RETRY_CONFIG =
      ⟨.error (retryExhaustedError 3 e2), 1, []⟩ := by
  have hnr2 : isNonRetryableError e2 = true := by
    simp [isNonRetryableError, h2]
  constructor
  · simp [withRetry, DEFAULT_RETRY_CONFIG, retryGo, h1]
  · simp [withRetry, DEFAULT_RETRY_CONFIG, retryGo, hnr2]

theorem c5_witness :
    withRetry (fun k => if k < 2 then .error (JSError.mk "Error" "boom" none) else .ok 7)
        DEFAULT_RETRY_CONFIG = ⟨.ok 7, 3, [1000, 2000]⟩
    ∧ withRetry (fun _ => (.error (mkValidationError "bad") : Except JSError Nat))
        DEFAULT_RETRY_CONFIG =
      ⟨.error (retryExhaustedError 3 (mkValidationError "bad")), 1, []⟩ :=
  c5_withRetry_counts 7 (JSError.mk "Error" "boom" none) (mkValidationError "bad")
    (by decide) (by decide)

/-- C1 counterexample: with no signer configured, `updateRFQ` on an
existing record issues a `getEntity` store call and only then fails with
the `SignatureError`, so a store call is attempted before the failure. -/
theorem c1_counterexample :
    runOp (updateRFQ ctxNoSigner "rfq-1" {} 200) =
      (.error noSignerError, [StoreCall.getEntity "RFQ" "rfq-1"])
    ∧ [StoreCall.getEntity "RFQ" "rfq-1"] ≠ ([] : List StoreCall) := by
  constructor
  · decide
  · decide

/-- C1 (amended): with no signer configured, every mutating operation fails
with the `SignatureError` before any mutating store call (`writeEntity` or
`deleteEntity`) is attempted; `createRFQ` fails before any store call at
all, while `updateRFQ`, `cancelRFQ` and `deleteRFQ` on an existing record
first perform exactly one `getEntity` read. -/
theorem c1_no_signer_behavior (ctx : ClientCtx) (input : CreateRFQInput) (now : Int)
    (random id : String) (upd : UpdateRFQInput) (ent : ArkivEntity)
    (hns : ctx.signer = none)
    (hvi : validateCreateRFQInput now input = .ok ())
    (hv : validateRFQId id = .ok ())
    (hg : ctx.store.getEntity "RFQ" id = .ok (some ent)) :
    runOp (createRFQ ctx input now random) = (.error noSignerError, [])
    ∧ runOp (updateRFQ ctx id upd now) =
        (.error noSignerError, [StoreCall.getEntity "RFQ" id])
    ∧ runOp (cancelRFQ ctx id now) =
        (.error noSignerError, [StoreCall.getEntity "RFQ" id])
    ∧ runOp (deleteRFQ ctx id) =
        (.error noSignerError, [StoreCall.getEntity "RFQ" id]) := by
  have hinner1 : ∀ t : List StoreCall,
      (wrapNet "Failed to get RFQ"
        (opBind (callGetEntity ctx RFQ_ENTITY_TYPE id) fun entity =>
          opPure (entity.map entityToRFQ))) t =
      (.ok (some (entityToRFQ ent)), t ++ [StoreCall.getEntity "RFQ" id]) := by
    intro t
    simp [wrapNet, opTryCatch, callGetEntity, recordCall, liftEx, RFQ_ENTITY_TYPE,
      opBind, opPure, hg]
  refine ⟨?_, ?_, ?_, ?_⟩
  · simp [runOp, createRFQ, opBind, liftEx, hvi, getSignerAddress, hns, opThrow,
      noSignerError]
  · simp [runOp, updateRFQ, getRFQ, withRetryOp, DEFAULT_RETRY_CONFIG, opBind, liftEx, hv,
      retryGoOp_first_ok _ _ _ _ _ _ (hinner1 []), getSignerAddress, hns, opThrow,
      noSignerError]
  · simp [runOp, cancelRFQ, updateRFQ, getRFQ, withRetryOp, DEFAULT_RETRY_CONFIG, opBind,
      liftEx, hv, retryGoOp_first_ok _ _ _ _ _ _ (hinner1 []), getSignerAddress, hns,
      opThrow, noSignerError]
  · simp [runOp, deleteRFQ, getRFQ, withRetryOp, DEFAULT_RETRY_CONFIG, opBind, liftEx, hv,
      retryGoOp_first_ok _ _ _ _ _ _ (hinner1 []), getSignerAddress, hns, opThrow,
      noSignerError]

theorem c1_witness :
    runOp (createRFQ ctxNoSigner inputW 1000 "r") = (.error noSignerError, [])
    ∧ runOp (updateRFQ ctxNoSigner "rfq-1" {} 1000) =
        (.error noSignerError, [StoreCall.getEntity "RFQ" "rfq-1"])
    ∧ runOp (cancelRFQ ctxNoSigner "rfq-1" 1000) =
        (.error noSignerError, [StoreCall.getEntity "RFQ" "rfq-1"])
    ∧ runOp (deleteRFQ ctxNoSigner "rfq-1") =
        (.error noSignerError, [StoreCall.getEntity "RFQ" "rfq-1"]) :=
  c1_no_signer_behavior ctxNoSigner inputW 1000 "r" "rfq-1" {} entOpen
    rfl (by decide) (by decide) (by decide)

/-- C3: `updateRFQ` on a record whose status is not OPEN always fails with
an `OwnershipError`: the non-creator caller fails the ownership check, and
the creator caller fails the status check, both raised as
`OwnershipError`. -/
theorem c3_update_nonopen_ownership (ctx : ClientCtx) (s : Signer) (id : String)
    (upd : UpdateRFQInput) (now : Int) (ent : ArkivEntity)
    (hs : ctx.signer = some s)
    (hv : validateRFQId id = .ok ())
    (hg : ctx.store.getEntity "RFQ" id = .ok (some ent))
    (hst : ent.data.status ≠ .OPEN) :
    (lowerString ent.data.creator = lowerString s.address →
      (runOp (updateRFQ ctx id upd now)).1 =
        .error (mkOwnershipError "Cannot update a non-open RFQ"))
    ∧ (lowerString ent.data.creator ≠ lowerString s.address →
      (runOp (updateRFQ ctx id upd now)).1 =
        .error (mkOwnershipError "Only the RFQ creator can update this RFQ")) := by
  have hinner1 : ∀ t : List StoreCall,
      (wrapNet "Failed to get RFQ"
        (opBind (callGetEntity ctx RFQ_ENTITY_TYPE id) fun entity =>
          opPure (entity.map entityToRFQ))) t =
      (.ok (some (entityToRFQ ent)), t ++ [StoreCall.getEntity "RFQ" id]) := by
    intro t
    simp [wrapNet, opTryCatch, callGetEntity, recordCall, liftEx, RFQ_ENTITY_TYPE,
      opBind, opPure, hg]
  constructor
  · intro hcr
    simp [runOp, updateRFQ, getRFQ, withRetryOp, DEFAULT_RETRY_CONFIG, opBind, liftEx, hv,
      retryGoOp_first_ok _ _ _ _ _ _ (hinner1 []), getSignerAddress, hs, opPure, opThrow,
      hcr, hst, entityToRFQ_data]
  · intro hcr
    simp [runOp, updateRFQ, getRFQ, withRetryOp, DEFAULT_RETRY_CONFIG, opBind, liftEx, hv,
      retryGoOp_first_ok _ _ _ _ _ _ (hinner1 []), getSignerAddress, hs, opPure, opThrow,
      hcr, hst, entityToRFQ_data]

theorem c3_witness :
    (runOp (updateRFQ ctxEcho "rfq-2" {} 300)).1 =
      .error (mkOwnershipError "Cannot update a non-open RFQ")
    ∧ (runOp (updateRFQ ctxOther "rfq-2" {} 300)).1 =
      .error (mkOwnershipError "Only the RFQ creator can update this RFQ") :=
  ⟨(c3_update_nonopen_ownership ctxEcho signerW "rfq-2" {} 300 entCancelled
      rfl (by decide) (by decide) (by decide)).1 (by decide),
   (c3_update_nonopen_ownership ctxOther signerOther "rfq-2" {} 300 entCancelled
      rfl (by decide) (by decide) (by decide)).2 (by decide)⟩

/-- C6 counterexample: a cancel that succeeds in the same second as the
previous mutation yields a record whose `updatedAt` equals — is not
strictly later than — the `updatedAt` before the call. -/
theorem c6_counterexample :
    (runOp (cancelRFQ ctxEcho "rfq-1" 100)).1 =
      .ok (mergeUpdate rfqOpen { status := some .CANCELLED } 100)
    ∧ (mergeUpdate rfqOpen { status := some .CANCELLED } 100).status = .CANCELLED
    ∧ ¬ rfqOpen.updatedAt <
        (mergeUpdate rfqOpen { status := some .CANCELLED } 100).updatedAt := by
  refine ⟨by decide, by decide, by decide⟩

/-- C6 (amended): `cancelRFQ(id)` is definitionally
`updateRFQ(id, {status: CANCELLED})`; on success the resulting record has
status CANCELLED and `updatedAt` equal to the call time, which is strictly
later than the previous `updatedAt` exactly when the call occurs at a
strictly later clock second. -/
theorem c6_cancel_equiv (ctx : ClientCtx) (s : Signer) (id : String) (now : Int)
    (ent : ArkivEntity)
    (hs : ctx.signer = some s)
    (hv : validateRFQId id = .ok ())
    (hg : ctx.store.getEntity "RFQ" id = .ok (some ent))
    (hcr : lowerString ent.data.creator = lowerString s.address)
    (hst : ent.data.status = .OPEN)
    (hw : ∀ w, ctx.store.writeEntity w = .ok ⟨w.entityKey, w.data, 0⟩)
    (ht : ent.data.updatedAt < now) :
    cancelRFQ ctx id now = updateRFQ ctx id { status := some .CANCELLED } now
    ∧ (runOp (cancelRFQ ctx id now)).1 =
        .ok (mergeUpdate ent.data { status := some .CANCELLED } now)
    ∧ (mergeUpdate ent.data { status := some .CANCELLED } now).status = .CANCELLED
    ∧ ent.data.updatedAt <
        (mergeUpdate ent.data { status := some .CANCELLED } now).updatedAt := by
  refine ⟨rfl, ?_, ?_, ?_⟩
  · have h := updateRFQ_success_run ctx s id { status := some .CANCELLED } now ent
      hs hv hg hcr hst hw
    simp [cancelRFQ, h]
  · simp [mergeUpdate]
  · simpa [mergeUpdate] using ht

theorem c6_witness :
    cancelRFQ ctxEcho "rfq-1" 200 = updateRFQ ctxEcho "rfq-1" { status := some .CANCELLED } 200
    ∧ (runOp (cancelRFQ ctxEcho "rfq-1" 200)).1 =
        .ok (mergeUpdate rfqOpen { status := some .CANCELLED } 200)
    ∧ (mergeUpdate rfqOpen { status := some .CANCELLED } 200).status = .CANCELLED
    ∧ rfqOpen.updatedAt < (mergeUpdate rfqOpen { status := some .CANCELLED } 200).updatedAt :=
  c6_cancel_equiv ctxEcho signerW "rfq-1" 200 entOpen
    rfl (by decide) (by decide) (by decide) (by decide) (fun w => rfl) (by decide)

/-- C7: a successful `updateRFQ` never changes the `id`, `creator`,
`baseToken` or `quoteToken` of the record, whatever the update input: the
merged record keeps them from the existing record. -/
theorem c7_update_frame (ctx : ClientCtx) (s : Signer) (id : String)
    (upd : UpdateRFQInput) (now : Int) (ent : ArkivEntity)
    (hs : ctx.signer = some s)
    (hv : validateRFQId id = .ok ())
    (hg : ctx.store.getEntity "RFQ" id = .ok (some ent))
    (hcr : lowerString ent.data.creator = lowerString s.address)
    (hst : ent.data.status = .OPEN)
    (hw : ∀ w, ctx.store.writeEntity w = .ok ⟨w.entityKey, w.data, 0⟩) :
    (runOp (updateRFQ ctx id upd now)).1 = .ok (mergeUpdate ent.data upd now)
    ∧ (mergeUpdate ent.data upd now).id = ent.data.id
    ∧ (mergeUpdate ent.data upd now).creator = ent.data.creator
    ∧ (mergeUpdate ent.data upd now).baseToken = ent.data.baseToken
    ∧ (mergeUpdate ent.data upd now).quoteToken = ent.data.quoteToken := by
  refine ⟨?_, rfl, rfl, rfl, rfl⟩
  simp [updateRFQ_success_run ctx s id upd now ent hs hv hg hcr hst hw]

theorem c7_witness :
    (runOp (updateRFQ ctxEcho "rfq-1" { baseAmount := some "42" } 200)).1 =
      .ok (mergeUpdate rfqOpen { baseAmount := some "42" } 200)
    ∧ (mergeUpdate rfqOpen { baseAmount := some "42" } 200).id = rfqOpen.id
    ∧ (mergeUpdate rfqOpen { baseAmount := some "42" } 200).creator = rfqOpen.creator
    ∧ (mergeUpdate rfqOpen { baseAmount := some "42" } 200).baseToken = rfqOpen.baseToken
    ∧ (mergeUpdate rfqOpen { baseAmount := some "42" } 200).quoteToken = rfqOpen.quoteToken :=
  c7_update_frame ctxEcho signerW "rfq-1" { baseAmount := some "42" } 200 entOpen
    rfl (by decide) (by decide) (by decide) (by decide) (fun w => rfl)

/-- C10: the record persisted and returned by a successful `createRFQ` has
`filledAmount` equal to the given `minFillAmount` when one is provided
(and a validated `minFillAmount` is never the literal "0"), and "0"
otherwise, while `fills` is always the empty list. -/
theorem c10_create_filledAmount (ctx : ClientCtx) (s : Signer) (input : CreateRFQInput)
    (now : Int) (random : String)
    (hs : ctx.signer = some s)
    (hvi : validateCreateRFQInput now input = .ok ())
    (hw : ∀ w, ctx.store.writeEntity w = .ok ⟨w.entityKey, w.data, 0⟩) :
    (runOp (createRFQ ctx input now random)).1 =
      .ok (mkCreateData (generateRFQId s.address now random) s.address input now)
    ∧ (∀ m, input.minFillAmount = some m →
        (mkCreateData (generateRFQId s.address now random) s.address input now).filledAmount
          = some m
        ∧ m ≠ "0")
    ∧ (input.minFillAmount = none →
        (mkCreateData (generateRFQId s.address now random) s.address input now).filledAmount
          = some "0")
    ∧ (mkCreateData (generateRFQId s.address now random) s.address input now).fills
        = some [] := by
  obtain ⟨hba, hqa, hmin⟩ := validateCreateRFQInput_parts now input hvi
  refine ⟨?_, ?_, ?_, rfl⟩
  · simp [createRFQ_success_run ctx s input now random hs hvi hw]
  · intro m hm
    obtain ⟨hne, hdig, h0⟩ := validateAmount_ok m "minFillAmount" (hmin m hm)
    exact ⟨by simp [mkCreateData, jsOrStr, hm, hne], h0⟩
  · intro hm
    simp [mkCreateData, jsOrStr, hm]

theorem c10_witness :
    (runOp (createRFQ ctxEcho inputWithMin 1000 "r")).1 =
      .ok (mkCreateData (generateRFQId signerW.address 1000 "r") signerW.address
        inputWithMin 1000)
    ∧ (mkCreateData (generateRFQId signerW.address 1000 "r") signerW.address
        inputWithMin 1000).filledAmount = some "500"
    ∧ ("500" : String) ≠ "0"
    ∧ (mkCreateData (generateRFQId signerW.address 1000 "r") signerW.address
        inputWithMin 1000).fills = some [] := by
  have h := c10_create_filledAmount ctxEcho signerW inputWithMin 1000 "r"
    rfl (by decide) (fun w => rfl)
  exact ⟨h.1, (h.2.1 "500" rfl).1, (h.2.1 "500" rfl).2, h.2.2.2⟩

/-- C8: a store failure whose message carries an HTTP 400/404 token is
wrapped by every lifecycle operation into an `ArkivNetworkError` with a
fixed "Failed to ..." message (prefixed "Network error: " by the base
class) that is independent of the underlying cause and whose name is not a
non-retryable kind, so the retry classifier keeps retrying it:
`getRFQ` and `createRFQ` against an always-failing store issue the store
call maxRetries + 1 = 4 times before surfacing the exhaustion error. -/
theorem c8_store_4xx_wrapped_and_retried (e : JSError)
    (h4 : strContainsSub (lowerString e.message) "400" = true ∨
          strContainsSub (lowerString e.message) "404" = true) :
    (∀ m ∈ (["Failed to create RFQ", "Failed to update RFQ", "Failed to delete RFQ",
              "Failed to get RFQ", "Failed to query RFQs"] : List String),
      (mkArkivNetworkError m (some e)).message = "Network error: " ++ m
      ∧ (mkArkivNetworkError m (some e)).name = "ArkivNetworkError"
      ∧ isNonRetryableError (mkArkivNetworkError m (some e)) = false)
    ∧ (∀ (ctx : ClientCtx) (id : String), validateRFQId id = .ok () →
        (∀ a b, ctx.store.getEntity a b = .error e) →
        runOp (getRFQ ctx id) =
          (.error (retryExhaustedError 3 (mkArkivNetworkError "Failed to get RFQ" (some e))),
            List.replicate 4 (StoreCall.getEntity "RFQ" id)))
    ∧ (∀ (ctx : ClientCtx) (s : Signer) (input : CreateRFQInput) (now : Int)
        (random : String), ctx.signer = some s →
        validateCreateRFQInput now input = .ok () →
        (∀ w, ctx.store.writeEntity w = .error e) →
        runOp (createRFQ ctx input now random) =
          (.error (retryExhaustedError 3
              (mkArkivNetworkError "Failed to create RFQ" (some e))),
            List.replicate 4
              (StoreCall.writeEntity "RFQ" (generateRFQId s.address now random)))) := by
  refine ⟨?_, ?_, ?_⟩
  · intro m hm
    fin_cases hm <;> exact ⟨rfl, rfl, rfl⟩
  · intro ctx id hv hge
    have hop : ∀ t,
        (wrapNet "Failed to get RFQ"
          (opBind (callGetEntity ctx RFQ_ENTITY_TYPE id) fun entity =>
            opPure (entity.map entityToRFQ))) t =
        (.error (mkArkivNetworkError "Failed to get RFQ" (some e)),
          t ++ [StoreCall.getEntity "RFQ" id]) := by
      intro t
      simp [wrapNet, opTryCatch, callGetEntity, recordCall, liftEx, RFQ_ENTITY_TYPE,
        opBind, opPure, opThrow, hge]
    have hn : isNonRetryableError (mkArkivNetworkError "Failed to get RFQ" (some e))
        = false := rfl
    simp [runOp, getRFQ, withRetryOp, DEFAULT_RETRY_CONFIG, opBind, liftEx, hv,
      retryGoOp_all_fail _ 3 _ _ hop hn 3 []]
  · intro ctx s input now random hs hvi hwe
    have hop : ∀ t,
        (wrapNet "Failed to create RFQ"
          (opBind (callWriteEntity ctx
              { entityType := RFQ_ENTITY_TYPE
                entityKey := generateRFQId s.address now random
                data := mkCreateData (generateRFQId s.address now random) s.address input now
                signature := some (s.signMessage (stringifyRFQData
                  (mkCreateData (generateRFQId s.address now random) s.address input now))) })
            fun entity => opPure entity.data)) t =
        (.error (mkArkivNetworkError "Failed to create RFQ" (some e)),
          t ++ [StoreCall.writeEntity "RFQ" (generateRFQId s.address now random)]) := by
      intro t
      simp [wrapNet, opTryCatch, callWriteEntity, recordCall, liftEx, RFQ_ENTITY_TYPE,
        opBind, opPure, opThrow, hwe]
    have hn : isNonRetryableError (mkArkivNetworkError "Failed to create RFQ" (some e))
        = false := rfl
    simp [runOp, createRFQ, opBind, liftEx, hvi, getSignerAddress, hs, opPure,
      signRFQData, withRetryOp, DEFAULT_RETRY_CONFIG, entityToRFQ_data,
      retryGoOp_all_fail _ 3 _ _ hop hn 3 []]

theorem c8_witness :
    runOp (getRFQ ctxFail "rfq-1") =
      (.error (retryExhaustedError 3
          (mkArkivNetworkError "Failed to get RFQ" (some err404))),
        List.replicate 4 (StoreCall.getEntity "RFQ" "rfq-1")) :=
  (c8_store_4xx_wrapped_and_retried err404 (Or.inr (by decide))).2.1
    ctxFail "rfq-1" (by decide) (fun a b => rfl)

/-- C9: `buildArkivFilters` lower-cases a creator filter into an equality
predicate, while the record assembled by `createRFQ` keeps the creator
exactly as the signer returned it; hence, under exact-equality matching, a
stored creator equal to the lower-cased filter value is necessarily
lower-case-invariant — a record created from a signer address containing
an uppercase letter can never match. -/
theorem c9_creator_filter_lowercase (qf : QueryFilters) (fc : String)
    (hfc : qf.creator = some fc) (hne : fc ≠ "") :
    (buildArkivFilters (some qf)).creator = some (lowerString fc)
    ∧ (∀ (id creator : String) (input : CreateRFQInput) (now : Int),
        (mkCreateData id creator input now).creator = creator)
    ∧ (∀ stored : String, stored = lowerString fc → lowerString stored = stored) := by
  refine ⟨?_, fun id creator input now => rfl, ?_⟩
  · simp [buildArkivFilters, hfc, hne]
  · intro stored h
    rw [h]
    exact lowerString_idem fc

theorem c9_witness :
    (buildArkivFilters (some { creator := some addrMixed })).creator =
      some (lowerString addrMixed)
    ∧ (mkCreateData "id1" addrMixed inputW 1000).creator = addrMixed
    ∧ lowerString (lowerString addrMixed) = lowerString addrMixed := by
  have h := c9_creator_filter_lowercase { creator := some addrMixed } addrMixed rfl
    (by decide)
  exact ⟨h.1, h.2.1 "id1" addrMixed inputW 1000, h.2.2 (lowerString addrMixed) rfl⟩
